import Mathlib

/-
Verification of the vehicle_sales_system back office: a shallow embedding of
the branch counter store, the sequence allocator, the accessory bill splitter,
the sales order aggregate, the finance fee calculator, the order finalization
workflow and the cashier ledger, translated from the Python source
(core/models.py, core/data_manager.py, features/sales/logic.py,
features/sales/config.py, features/cashier/logic.py, order.py, app_sales.py).
Monetary values are modelled as exact rationals and Python integers as `Int`.
-/

namespace VehicleSales

/-- Branch row of `core/models.py` (`Branch`): per-branch monotonic counters,
firm assignments and configuration. Counters are Python ints, modelled as
`Int`; the two firm assignments are nullable integer foreign keys. -/
structure Branch where
  Branch_ID : String
  Branch_Name : String
  DC_Last_Number : Int
  Acc_Inv_1_Last_Number : Int
  Acc_Inv_2_Last_Number : Int
  Receipt_Last_Number : Int
  Voucher_Last_Number : Int
  Branch_Receipt_Last_Number : Int
  Job_Card_Last_Number : Int
  Out_Bill_Last_Number : Int
  Pricing_Adjustment : Rat
  Firm_ID_1 : Option Int
  Firm_ID_2 : Option Int
  dc_gen_enabled : Option Bool
  deriving Repr, DecidableEq

/-- Firm row of `core/models.py` (`FirmMaster`). -/
structure FirmMaster where
  Firm_ID : Int
  Firm_Name : String
  Invoice_Prefix : String
  Gst_No : String
  deriving Repr, DecidableEq

/-- The fields of a persisted `SalesRecord` that the verified operations
read or write (core/models.py `SalesRecord`). -/
structure SalesRecord where
  Branch_ID : String
  DC_Number : String
  Customer_Name : String
  Acc_Inv_1_No : Int
  Acc_Inv_2_No : Int
  deriving Repr, DecidableEq

/-- The record payload handed to `create_sales_record` (the dict built by
`SalesOrder.get_data_for_export` in order.py); `DC_Sequence_No` is popped
off before insertion and used only for the counter update. -/
structure RecordData where
  Branch_ID : String
  DC_Number : String
  Customer_Name : String
  Phone_Number : String
  Model : String
  Discount_Given : Rat
  DC_Sequence_No : Int
  Acc_Inv_1_No : Int
  Acc_Inv_2_No : Int
  deriving Repr, DecidableEq

/-- Modelled from the spec: the `ApprovalRequest` model is referenced by
`app_sales.py` (fields `Customer_Name`, `Model`, `Discount_Requested`,
`Order_JSON`, `Status`) but its class definition is not under src; per the
spec it stores a customer/vehicle summary, the requested discount, the full
serialized order payload, the branch id and a status. -/
structure ApprovalRequest where
  Customer_Name : String
  Model : String
  Discount_Requested : Rat
  Order_JSON : RecordData
  Branch_ID : String
  Status : String
  deriving Repr, DecidableEq

/-- Cashier ledger row of `core/models.py` (`CashierTransaction`). Dates are
modelled as integers (day index). -/
structure CashierTransaction where
  id : Int
  date : Int
  transaction_type : String
  category : String
  payment_mode : String
  amount : Rat
  description : String
  branch_id : String
  party_name : Option String
  dc_number : Option String
  receipt_number : Option Int
  voucher_number : Option Int
  imported_from_id : Option Int
  is_expense : Bool
  deriving Repr, DecidableEq

/-- The durable database state: the tables the verified operations touch.
`nextCashierId` models the autoincrement primary key of `cashier_log`. -/
structure DB where
  branches : List Branch
  firms : List FirmMaster
  salesRecords : List SalesRecord
  approvals : List ApprovalRequest
  cashier : List CashierTransaction
  nextCashierId : Int
  deriving Repr, DecidableEq

/-- Branch lookup by primary key, as in
`db.query(models.Branch).filter(models.Branch.Branch_ID == branch_id).first()`. -/
def findBranch (db : DB) (bid : String) : Option Branch :=
  db.branches.find? (fun b => b.Branch_ID == bid)

/-- Firm lookup by primary key, as in
`db.query(models.FirmMaster).filter(models.FirmMaster.Firm_ID == firm_id).first()`. -/
def findFirm (firms : List FirmMaster) (fid : Int) : Option FirmMaster :=
  firms.find? (fun f => f.Firm_ID == fid)

/-! ## Finance fee calculator (features/sales/logic.py `calculate_finance_fees`,
constants from features/sales/config.py) -/

/-- features/sales/config.py: `HP_FEE_DEFAULT = 2000.00`. -/
def HP_FEE_DEFAULT : Rat := 2000

/-- features/sales/config.py: `HP_FEE_BANK_QUOTATION = 500.00`. -/
def HP_FEE_BANK_QUOTATION : Rat := 500

/-- features/sales/config.py: `GST_RATE_CALC = 0.00`. -/
def GST_RATE_CALC : Rat := 0

/-- The two incentive rule kinds of `core/models.py` (`IncentiveType`):
`percentage_dd` and `fixed_file`. -/
inductive IncType where
  | percentage_dd
  | fixed_file
  deriving Repr, DecidableEq

/-- One entry of the `incentive_rules` dict built by
`get_config_lists_by_branch`: `{'type': ..., 'value': ...}`. -/
structure IncentiveRule where
  type : IncType
  value : Rat
  deriving Repr, DecidableEq

/-- Dict membership and lookup for `incentive_rules` (Python
`financier_name in incentive_rules` / `incentive_rules[financier_name]`). -/
def lookupRule (rules : List (String × IncentiveRule)) (name : String) :
    Option IncentiveRule :=
  (rules.find? (fun p => p.1 == name)).map (fun p => p.2)

/-- features/sales/logic.py `calculate_finance_fees`. -/
def calculate_finance_fees (financier_name : String) (dd_amount : Rat)
    (out_finance_flag : Bool) (incentive_rules : List (String × IncentiveRule)) :
    Rat × Rat :=
  if out_finance_flag then
    (HP_FEE_DEFAULT, 0)
  else if financier_name == "Bank" then
    (HP_FEE_BANK_QUOTATION, 0)
  else
    match lookupRule incentive_rules financier_name with
    | some rule =>
      match rule.type with
      | .percentage_dd => (HP_FEE_DEFAULT, dd_amount * rule.value)
      | .fixed_file => (HP_FEE_DEFAULT, rule.value)
    | none => (HP_FEE_DEFAULT, 0)

/-- C5: For every input, `calculate_finance_fees` returns
`(HP_FEE_DEFAULT, 0)` when `out_finance_flag` is true, regardless of
financier; `(HP_FEE_BANK_QUOTATION, 0)` when the flag is false and the
financier is "Bank"; otherwise `(HP_FEE_DEFAULT, incentive)` where
`incentive` is `dd_amount * value` for a `percentage_dd` rule, the fixed
`value` for a `fixed_file` rule, and 0 when the financier has no rule. -/
theorem calculate_finance_fees_policy (financier_name : String) (dd_amount : Rat)
    (out_finance_flag : Bool) (incentive_rules : List (String × IncentiveRule)) :
    (out_finance_flag = true →
      calculate_finance_fees financier_name dd_amount out_finance_flag incentive_rules
        = (HP_FEE_DEFAULT, 0)) ∧
    (out_finance_flag = false → financier_name = "Bank" →
      calculate_finance_fees financier_name dd_amount out_finance_flag incentive_rules
        = (HP_FEE_BANK_QUOTATION, 0)) ∧
    (out_finance_flag = false → financier_name ≠ "Bank" →
      ((∀ v, lookupRule incentive_rules financier_name = some ⟨IncType.percentage_dd, v⟩ →
        calculate_finance_fees financier_name dd_amount out_finance_flag incentive_rules
          = (HP_FEE_DEFAULT, dd_amount * v)) ∧
       (∀ v, lookupRule incentive_rules financier_name = some ⟨IncType.fixed_file, v⟩ →
        calculate_finance_fees financier_name dd_amount out_finance_flag incentive_rules
          = (HP_FEE_DEFAULT, v)) ∧
       (lookupRule incentive_rules financier_name = none →
        calculate_finance_fees financier_name dd_amount out_finance_flag incentive_rules
          = (HP_FEE_DEFAULT, 0)))) := by
  refine ⟨?_, ?_, ?_⟩
  · intro hflag
    simp [calculate_finance_fees, hflag]
  · intro hflag hbank
    simp [calculate_finance_fees, hflag, hbank]
  · intro hflag hbank
    refine ⟨?_, ?_, ?_⟩
    · intro v hrule
      simp [calculate_finance_fees, hflag, hbank, hrule]
    · intro v hrule
      simp [calculate_finance_fees, hflag, hbank, hrule]
    · intro hrule
      simp [calculate_finance_fees, hflag, hbank, hrule]

/-- Concrete witness for C5: the spec's policy table row
financier "ABC Finance", rule `percentage_dd` 0.02, dd 50000 gives
`(HP_FEE_DEFAULT, 1000)`. -/
theorem calculate_finance_fees_policy_witness :
    calculate_finance_fees "ABC Finance" 50000 false
        [("ABC Finance", ⟨IncType.percentage_dd, 1/50⟩)]
      = (HP_FEE_DEFAULT, 1000) := by
  have h := calculate_finance_fees_policy "ABC Finance" 50000 false
    [("ABC Finance", ⟨IncType.percentage_dd, 1/50⟩)]
  have h2 := (h.2.2 rfl (by decide)).1 (1/50) (by rfl)
  rw [h2]
  norm_num

/-! ## Sequence allocator (features/sales/logic.py `get_next_dc_number`,
`generate_accessory_invoice_number`; core/data_manager.py
`update_branch_sequences`) -/

/-- Left zero-padding helper for Python's minimum-width integer formatting. -/
def padLeftZeros (s : String) (w : Nat) : String :=
  if s.length ≥ w then s else String.mk (List.replicate (w - s.length) '0') ++ s

/-- Python's `format(n, '04d')`: width-4 zero padding, the sign counted in
the width and the zeros placed after the sign. -/
def format04d (n : Int) : String :=
  if n < 0 then "-" ++ padLeftZeros (toString n.natAbs) 3
  else padLeftZeros (toString n.natAbs) 4

/-- features/sales/logic.py `get_next_dc_number`: lock/read the branch row,
return `(f"DC-{next:04d}", next)` with `next = DC_Last_Number + 1`; a missing
branch raises `ValueError`. -/
def get_next_dc_number (db : DB) (bid : String) : Except String (String × Int) :=
  match findBranch db bid with
  | none => .error ("Branch ID '" ++ bid ++ "' not found.")
  | some branch =>
    let nextNumber := branch.DC_Last_Number + 1
    .ok ("DC-" ++ format04d nextNumber, nextNumber)

/-- The field updates `update_branch_sequences` performs on the locked branch
row: `DC_Last_Number` unconditionally, each accessory counter only when the
new value is positive. -/
def applySequenceUpdate (b : Branch) (newDc newAcc1 newAcc2 : Int) : Branch :=
  let b1 := { b with DC_Last_Number := newDc }
  let b2 := if newAcc1 > 0 then { b1 with Acc_Inv_1_Last_Number := newAcc1 } else b1
  if newAcc2 > 0 then { b2 with Acc_Inv_2_Last_Number := newAcc2 } else b2

/-- The row mutation of core/data_manager.py `update_branch_sequences` on the
branches table: `.one()` demands exactly one row with the given id (otherwise
the function raises and rolls back), and that row is updated in place. -/
def updateBranchesList (l : List Branch) (bid : String) (newDc newAcc1 newAcc2 : Int) :
    Except String (List Branch) :=
  match l.filter (fun b => b.Branch_ID == bid) with
  | [_] => .ok (l.map (fun r =>
      if r.Branch_ID == bid then applySequenceUpdate r newDc newAcc1 newAcc2 else r))
  | _ => .error "Atomic sequence update failed"

/-- core/data_manager.py `update_branch_sequences`, with the enclosing
transaction committed (the durable state after `db.commit()`). -/
def update_branch_sequences (db : DB) (bid : String) (newDc newAcc1 newAcc2 : Int) :
    Except String DB :=
  (updateBranchesList db.branches bid newDc newAcc1 newAcc2).map
    (fun bl => { db with branches := bl })

/-- If a predicate selects exactly one element of a list, `find?` returns it. -/
theorem find?_of_filter_singleton {α : Type} (l : List α) (p : α → Bool) (b : α)
    (h : l.filter p = [b]) : l.find? p = some b := by
  induction l with
  | nil => simp at h
  | cons a t ih =>
    by_cases hpa : p a
    · rw [List.filter_cons_of_pos hpa] at h
      rw [List.find?_cons_of_pos _ hpa]
      exact congrArg some (List.cons_eq_cons.mp h).1
    · rw [List.filter_cons_of_neg (by simpa using hpa)] at h
      rw [List.find?_cons_of_neg _ (by simpa using hpa)]
      exact ih h

/-- Updating the rows selected by a predicate commutes with filtering by that
predicate, provided the update preserves the predicate. -/
theorem filter_map_update {α : Type} (l : List α) (p : α → Bool) (f : α → α)
    (hf : ∀ r, p r = true → p (f r) = true) :
    (l.map (fun r => if p r then f r else r)).filter p
      = (l.filter p).map f := by
  induction l with
  | nil => simp
  | cons a t ih =>
    simp only [List.map_cons]
    by_cases hpa : p a
    · rw [if_pos hpa, List.filter_cons_of_pos (hf a hpa), List.filter_cons_of_pos hpa,
        List.map_cons, ih]
    · rw [if_neg hpa, List.filter_cons_of_neg (by simpa using hpa),
        List.filter_cons_of_neg (by simpa using hpa), ih]

/-- The counter update never changes the branch primary key. -/
theorem applySequenceUpdate_Branch_ID (b : Branch) (d a1 a2 : Int) :
    (applySequenceUpdate b d a1 a2).Branch_ID = b.Branch_ID := by
  unfold applySequenceUpdate
  split <;> split <;> rfl

/-- Field-by-field description of the counter update. -/
theorem applySequenceUpdate_fields (b : Branch) (d a1 a2 : Int) :
    applySequenceUpdate b d a1 a2 =
      { b with DC_Last_Number := d,
               Acc_Inv_1_Last_Number :=
                 if a1 > 0 then a1 else b.Acc_Inv_1_Last_Number,
               Acc_Inv_2_Last_Number :=
                 if a2 > 0 then a2 else b.Acc_Inv_2_Last_Number } := by
  unfold applySequenceUpdate
  by_cases h1 : a1 > 0 <;> by_cases h2 : a2 > 0 <;> simp [h1, h2]

/-- C9: `update_branch_sequences` on an existing branch sets `DC_Last_Number`
to `new_dc_seq` unconditionally, leaves `Acc_Inv_1_Last_Number` unchanged
whenever `new_acc1_seq ≤ 0` and sets it otherwise (likewise for slot 2), and
leaves every other field of the branch row unchanged. -/
theorem update_branch_sequences_frame (db : DB) (bid : String) (b : Branch)
    (newDc newAcc1 newAcc2 : Int)
    (h : db.branches.filter (fun r => r.Branch_ID == bid) = [b]) :
    ∃ db' b', update_branch_sequences db bid newDc newAcc1 newAcc2 = .ok db' ∧
      findBranch db' bid = some b' ∧
      b'.DC_Last_Number = newDc ∧
      (newAcc1 ≤ 0 → b'.Acc_Inv_1_Last_Number = b.Acc_Inv_1_Last_Number) ∧
      (newAcc1 > 0 → b'.Acc_Inv_1_Last_Number = newAcc1) ∧
      (newAcc2 ≤ 0 → b'.Acc_Inv_2_Last_Number = b.Acc_Inv_2_Last_Number) ∧
      (newAcc2 > 0 → b'.Acc_Inv_2_Last_Number = newAcc2) ∧
      b'.Branch_ID = b.Branch_ID ∧
      b'.Branch_Name = b.Branch_Name ∧
      b'.Receipt_Last_Number = b.Receipt_Last_Number ∧
      b'.Voucher_Last_Number = b.Voucher_Last_Number ∧
      b'.Branch_Receipt_Last_Number = b.Branch_Receipt_Last_Number ∧
      b'.Job_Card_Last_Number = b.Job_Card_Last_Number ∧
      b'.Out_Bill_Last_Number = b.Out_Bill_Last_Number ∧
      b'.Pricing_Adjustment = b.Pricing_Adjustment ∧
      b'.Firm_ID_1 = b.Firm_ID_1 ∧
      b'.Firm_ID_2 = b.Firm_ID_2 ∧
      b'.dc_gen_enabled = b.dc_gen_enabled := by
  have hok : update_branch_sequences db bid newDc newAcc1 newAcc2 =
      .ok { db with branches := db.branches.map (fun r =>
        if r.Branch_ID == bid then applySequenceUpdate r newDc newAcc1 newAcc2 else r) } := by
    unfold update_branch_sequences updateBranchesList
    rw [h]
    rfl
  have hmap : (db.branches.map (fun r =>
      if r.Branch_ID == bid then applySequenceUpdate r newDc newAcc1 newAcc2 else r)).filter
        (fun r => r.Branch_ID == bid)
      = [applySequenceUpdate b newDc newAcc1 newAcc2] := by
    rw [filter_map_update db.branches (fun r => r.Branch_ID == bid)
      (fun r => applySequenceUpdate r newDc newAcc1 newAcc2)
      (fun r hr => by
        show ((applySequenceUpdate r newDc newAcc1 newAcc2).Branch_ID == bid) = true
        rw [applySequenceUpdate_Branch_ID]
        exact hr), h]
    rfl
  refine ⟨_, applySequenceUpdate b newDc newAcc1 newAcc2, hok,
    find?_of_filter_singleton _ _ _ hmap, ?_⟩
  rw [applySequenceUpdate_fields]
  refine ⟨rfl, ?_, ?_, ?_, ?_, rfl, rfl, rfl, rfl, rfl, rfl, rfl, rfl, rfl, rfl, rfl⟩
  · intro hle
    show (if newAcc1 > 0 then newAcc1 else b.Acc_Inv_1_Last_Number)
      = b.Acc_Inv_1_Last_Number
    rw [if_neg (by omega)]
  · intro hgt
    show (if newAcc1 > 0 then newAcc1 else b.Acc_Inv_1_Last_Number) = newAcc1
    rw [if_pos hgt]
  · intro hle
    show (if newAcc2 > 0 then newAcc2 else b.Acc_Inv_2_Last_Number)
      = b.Acc_Inv_2_Last_Number
    rw [if_neg (by omega)]
  · intro hgt
    show (if newAcc2 > 0 then newAcc2 else b.Acc_Inv_2_Last_Number) = newAcc2
    rw [if_pos hgt]

/-- A sample branch row used for concrete witnesses. -/
def sampleBranch : Branch :=
  { Branch_ID := "BR1", Branch_Name := "Main", DC_Last_Number := 7,
    Acc_Inv_1_Last_Number := 1200, Acc_Inv_2_Last_Number := 0,
    Receipt_Last_Number := 3, Voucher_Last_Number := 4,
    Branch_Receipt_Last_Number := 5, Job_Card_Last_Number := 6,
    Out_Bill_Last_Number := 2, Pricing_Adjustment := 0,
    Firm_ID_1 := some 5, Firm_ID_2 := some 6, dc_gen_enabled := some true }

/-- A sample firm row used for concrete witnesses. -/
def sampleFirm : FirmMaster :=
  { Firm_ID := 5, Firm_Name := "Krishna Motors", Invoice_Prefix := "KM",
    Gst_No := "GST1" }

/-- A sample database used for concrete witnesses. -/
def sampleDB : DB :=
  { branches := [sampleBranch], firms := [sampleFirm], salesRecords := [],
    approvals := [], cashier := [], nextCashierId := 1 }

/-- Concrete witness for C9: updating `sampleBranch` with (8, 1201, 0) sets
DC to 8, slot 1 to 1201 and leaves slot 2 and the receipt counter alone. -/
theorem update_branch_sequences_frame_witness :
    ∃ db' b',
      update_branch_sequences sampleDB "BR1" 8 1201 0 = .ok db' ∧
      findBranch db' "BR1" = some b' ∧
      b'.DC_Last_Number = 8 ∧
      b'.Acc_Inv_2_Last_Number = 0 ∧
      b'.Receipt_Last_Number = 3 := by
  obtain ⟨db', b', h1, h2, h3, _, h5, h6, _, _, _, h10, _⟩ :=
    update_branch_sequences_frame sampleDB "BR1" sampleBranch 8 1201 0 (by decide)
  exact ⟨db', b', h1, h2, h3, by rw [h6 (by decide)]; rfl, by rw [h10]; rfl⟩

/-- The common tail of features/sales/logic.py
`generate_accessory_invoice_number`: if the last-used value is below the
slot's floor, treat floor minus one as last used, then increment and format
`(f"{prefix}-{last_used+1}", last_used+1)`. -/
def accInvTail (p : String) (lu start_seq : Int) : String × Int :=
  let last_used := if lu < start_seq then start_seq - 1 else lu
  let sequential_part := last_used + 1
  (p ++ "-" ++ toString sequential_part, sequential_part)

/-- features/sales/logic.py `generate_accessory_invoice_number`: look up the
firm for its invoice prefix; pick the slot's last-used counter and floor
(1000 for slot 1, 2000 for slot 2); hand both to the floor-adjusting
increment-and-format tail. -/
def generate_accessory_invoice_number (db : DB) (branch : Branch) (firm_id : Int)
    (accessory_slot : Nat) : String × Int :=
  match findFirm db.firms firm_id with
  | none => ("ERR-FIRM" ++ toString firm_id, 0)
  | some fm =>
    if accessory_slot = 1 then
      accInvTail (FirmMaster.Invoice_Prefix fm) branch.Acc_Inv_1_Last_Number 1000
    else if accessory_slot = 2 then
      accInvTail (FirmMaster.Invoice_Prefix fm) branch.Acc_Inv_2_Last_Number 2000
    else ("ERR-SLOT", 0)

/-- The sequence value claim C2 predicts: `stored + 1` when the stored value
is at or above the slot floor, the floor itself when it is below (this
definition follows the claim's words, to be compared with the code's
result). -/
def specAccInvSeq (stored floor : Int) : Int :=
  if stored ≥ floor then stored + 1 else floor

/-- C2: for every branch and slot `s ∈ {1,2}` with an existing firm, the
allocated accessory invoice sequence is `stored_last + 1` when the stored
value is at or above the slot floor (1000 for slot 1, 2000 for slot 2) and
exactly the floor when it is below, and the returned string is
`{firm_prefix}-{sequence}`. -/
theorem generate_accessory_invoice_number_floor (db : DB) (branch : Branch)
    (firm_id : Int) (fm : FirmMaster)
    (hf : findFirm db.firms firm_id = some fm) :
    generate_accessory_invoice_number db branch firm_id 1
      = (FirmMaster.Invoice_Prefix fm ++ "-" ++
          toString (specAccInvSeq branch.Acc_Inv_1_Last_Number 1000),
         specAccInvSeq branch.Acc_Inv_1_Last_Number 1000) ∧
    generate_accessory_invoice_number db branch firm_id 2
      = (FirmMaster.Invoice_Prefix fm ++ "-" ++
          toString (specAccInvSeq branch.Acc_Inv_2_Last_Number 2000),
         specAccInvSeq branch.Acc_Inv_2_Last_Number 2000) := by
  have tail : ∀ (p : String) (lu s : Int),
      accInvTail p lu s = (p ++ "-" ++ toString (specAccInvSeq lu s), specAccInvSeq lu s) := by
    intro p lu s
    unfold accInvTail specAccInvSeq
    by_cases hlt : lu < s
    · rw [if_pos hlt, if_neg (by omega)]
      show (p ++ "-" ++ toString (s - 1 + 1), s - 1 + 1) = (p ++ "-" ++ toString s, s)
      have hsum : s - 1 + 1 = s := by omega
      rw [hsum]
    · rw [if_neg hlt, if_pos (by omega)]
  constructor
  · unfold generate_accessory_invoice_number
    rw [hf]
    norm_num [tail]
  · unfold generate_accessory_invoice_number
    rw [hf]
    norm_num [tail]

/-- Concrete witness for C2: `sampleBranch` has `Acc_Inv_2_Last_Number = 0`
and firm 5 has prefix "KM", so the first slot-2 invoice is ("KM-2000", 2000). -/
theorem generate_accessory_invoice_number_floor_witness :
    generate_accessory_invoice_number sampleDB sampleBranch 5 2
      = ("KM-2000", 2000) := by
  have h := (generate_accessory_invoice_number_floor sampleDB sampleBranch 5
    sampleFirm (by rfl)).2
  rw [h]
  rfl



/-! ## C1: monotonic uniqueness of DC allocation -/

/-- One DC allocation followed by its successful finalization commit:
`get_next_dc_number` reads `DC_Last_Number + 1` and the enclosing
transaction persists it through `update_branch_sequences` (the accessory
arguments are 0, which leave those counters untouched). -/
def allocateDCAndCommit (db : DB) (bid : String) : Except String (DB × String × Int) :=
  match get_next_dc_number db bid with
  | .error e => .error e
  | .ok pr =>
    match update_branch_sequences db bid pr.2 0 0 with
    | .error e => .error e
    | .ok db' => .ok (db', pr.1, pr.2)

/-- N successive DC allocations, each followed by its commit, collecting the
returned sequence numbers in order. -/
def allocateDCs : DB → String → Nat → Except String (DB × List Int)
  | db, _, 0 => .ok (db, [])
  | db, bid, n + 1 =>
    match allocateDCAndCommit db bid with
    | .error e => .error e
    | .ok (db', _, k) =>
      match allocateDCs db' bid n with
      | .error e => .error e
      | .ok (db'', ks) => .ok (db'', k :: ks)

/-- The consecutive run of sequence values `last+1 … last+n`, in order. -/
def dcSeqList (last : Int) (n : Nat) : List Int :=
  (List.range n).map (fun (i : Nat) => last + 1 + (i : Int))

/-- Peeling one allocation off the front of a consecutive run. -/
theorem dcSeqList_succ (last : Int) (m : Nat) :
    dcSeqList last (m + 1) = (last + 1) :: dcSeqList (last + 1) m := by
  unfold dcSeqList
  rw [List.range_succ_eq_map, List.map_cons, List.map_map]
  simp only [Nat.cast_zero, add_zero]
  refine congrArg _ (List.map_congr_left ?_)
  intro i _
  simp only [Function.comp_apply]
  push_cast
  ring

/-- A consecutive run has no duplicates. -/
theorem dcSeqList_nodup (last : Int) (n : Nat) : (dcSeqList last n).Nodup := by
  unfold dcSeqList
  refine List.Nodup.map ?_ (List.nodup_range n)
  intro i j hij
  have h2 : last + 1 + (i : Int) = last + 1 + (j : Int) := hij
  omega

/-- A branch uniquely selected by its id survives one allocate-and-commit
step with its DC counter bumped by one and everything else equal. -/
theorem allocateDCAndCommit_step (db : DB) (bid : String) (b : Branch)
    (h : db.branches.filter (fun r => r.Branch_ID == bid) = [b]) :
    ∃ db', allocateDCAndCommit db bid
        = .ok (db', "DC-" ++ format04d (b.DC_Last_Number + 1), b.DC_Last_Number + 1)
      ∧ db'.branches.filter (fun r => r.Branch_ID == bid)
          = [{ b with DC_Last_Number := b.DC_Last_Number + 1 }] := by
  have hfind : findBranch db bid = some b := find?_of_filter_singleton _ _ _ h
  have hget : get_next_dc_number db bid
      = .ok ("DC-" ++ format04d (b.DC_Last_Number + 1), b.DC_Last_Number + 1) := by
    unfold get_next_dc_number
    rw [hfind]
  have hupd : update_branch_sequences db bid (b.DC_Last_Number + 1) 0 0 =
      .ok { db with branches := db.branches.map (fun r =>
        if r.Branch_ID == bid then applySequenceUpdate r (b.DC_Last_Number + 1) 0 0 else r) } := by
    unfold update_branch_sequences updateBranchesList
    rw [h]
    rfl
  refine ⟨{ db with branches := db.branches.map (fun r =>
      if r.Branch_ID == bid then applySequenceUpdate r (b.DC_Last_Number + 1) 0 0 else r) },
    ?_, ?_⟩
  · simp only [allocateDCAndCommit, hget, hupd]
  · show (db.branches.map (fun r =>
        if r.Branch_ID == bid then applySequenceUpdate r (b.DC_Last_Number + 1) 0 0 else r)).filter
          (fun r => r.Branch_ID == bid)
      = [{ b with DC_Last_Number := b.DC_Last_Number + 1 }]
    rw [filter_map_update db.branches (fun r => r.Branch_ID == bid)
      (fun r => applySequenceUpdate r (b.DC_Last_Number + 1) 0 0)
      (fun r hr => by
        show ((applySequenceUpdate r (b.DC_Last_Number + 1) 0 0).Branch_ID == bid) = true
        rw [applySequenceUpdate_Branch_ID]
        exact hr), h]
    rw [List.map_singleton, applySequenceUpdate_fields]
    norm_num

/-- C1: for an existing branch (uniquely identified by its id), each DC
allocation returns exactly the stored counter value plus one formatted as
`DC-{next:04d}`, the committed finalization stores that value back, and N
successive allocate-and-commit rounds starting from `last` return exactly
the integers `last+1 … last+N`, in order, with no duplicates and no gaps,
leaving the stored counter at `last + N`. -/
theorem dc_allocation_consecutive (db : DB) (bid : String) (b : Branch) (n : Nat)
    (h : db.branches.filter (fun r => r.Branch_ID == bid) = [b]) :
    get_next_dc_number db bid
      = .ok ("DC-" ++ format04d (b.DC_Last_Number + 1), b.DC_Last_Number + 1) ∧
    (dcSeqList b.DC_Last_Number n).Nodup ∧
    ∃ db', allocateDCs db bid n = .ok (db', dcSeqList b.DC_Last_Number n)
      ∧ ∃ b', findBranch db' bid = some b'
          ∧ b'.DC_Last_Number = b.DC_Last_Number + n := by
  refine ⟨?_, dcSeqList_nodup _ _, ?_⟩
  · have hfind : findBranch db bid = some b := find?_of_filter_singleton _ _ _ h
    unfold get_next_dc_number
    rw [hfind]
  · induction n generalizing db b with
    | zero =>
      exact ⟨db, by rfl, b, find?_of_filter_singleton _ _ _ h, by simp⟩
    | succ m ih =>
      obtain ⟨db1, hstep, hfilter1⟩ := allocateDCAndCommit_step db bid b h
      obtain ⟨db2, hrest, b', hfind', hdc'⟩ :=
        ih db1 { b with DC_Last_Number := b.DC_Last_Number + 1 } hfilter1
      refine ⟨db2, ?_, b', hfind', ?_⟩
      · have hrest' : allocateDCs db1 bid m
            = .ok (db2, dcSeqList (b.DC_Last_Number + 1) m) := hrest
        show allocateDCs db bid (m + 1) = .ok (db2, dcSeqList b.DC_Last_Number (m + 1))
        rw [dcSeqList_succ]
        simp only [allocateDCs]
        rw [hstep]
        simp only []
        rw [hrest']
      · have hdc2 : b'.DC_Last_Number = b.DC_Last_Number + 1 + (m : Int) := hdc'
        rw [hdc2]
        push_cast
        ring

/-- Concrete witness for C1: starting from `sampleBranch` (DC counter 7),
three allocate-and-commit rounds return exactly 8, 9, 10 and leave the
counter at 10; the first allocation formats as "DC-0008". -/
theorem dc_allocation_consecutive_witness :
    get_next_dc_number sampleDB "BR1" = .ok ("DC-0008", 8) ∧
    ∃ db', allocateDCs sampleDB "BR1" 3 = .ok (db', [8, 9, 10])
      ∧ ∃ b', findBranch db' "BR1" = some b' ∧ b'.DC_Last_Number = 10 := by
  obtain ⟨hget, _, db', halloc, b', hfind, hdc⟩ :=
    dc_allocation_consecutive sampleDB "BR1" sampleBranch 3 (by decide)
  refine ⟨?_, db', ?_, b', hfind, by rw [hdc]; rfl⟩
  · rw [hget]
    rfl
  · rw [halloc]
    rfl

/-! ## C3: all-or-nothing `create_sales_record`
(core/data_manager.py `create_sales_record`) -/

/-- An open ORM session over the durable database: `base` is what is durable,
`cur` is the working state including uncommitted pending changes. -/
structure Session where
  base : DB
  cur : DB
  deriving Repr, DecidableEq

/-- Opening a session: no pending changes. -/
def Session.start (db : DB) : Session := ⟨db, db⟩

/-- `db.commit()`: pending changes become durable. -/
def Session.commit (s : Session) : Session := ⟨s.cur, s.cur⟩

/-- `db.rollback()`: pending changes are discarded. -/
def Session.rollback (s : Session) : Session := ⟨s.base, s.base⟩

/-- The row built by `models.SalesRecord(**record_data)` from the payload
(after `DC_Sequence_No` is popped off). -/
def recordOf (rd : RecordData) : SalesRecord :=
  { Branch_ID := rd.Branch_ID, DC_Number := rd.DC_Number,
    Customer_Name := rd.Customer_Name, Acc_Inv_1_No := rd.Acc_Inv_1_No,
    Acc_Inv_2_No := rd.Acc_Inv_2_No }

/-- core/data_manager.py `create_sales_record`: within one session, insert
the SalesRecord built from the payload (after popping `DC_Sequence_No`),
run `update_branch_sequences` on the pending state, then commit. The
`commitOk` flag models a database-level failure of the final commit (for
example the unique `(Branch_ID, DC_Number)` constraint rejecting the record
insert). Any failure rolls the session back and re-raises; the returned
`DB` is the durable state afterwards. -/
def create_sales_record (db : DB) (rd : RecordData) (commitOk : Bool) :
    Except String SalesRecord × DB :=
  let s := Session.start db
  let rec0 : SalesRecord := recordOf rd
  let s1 : Session :=
    { s with cur := { s.cur with salesRecords := s.cur.salesRecords ++ [rec0] } }
  match updateBranchesList s1.cur.branches rd.Branch_ID rd.DC_Sequence_No
      rd.Acc_Inv_1_No rd.Acc_Inv_2_No with
  | .error e => (.error ("Transaction failed: " ++ e), (Session.rollback s1).base)
  | .ok bl =>
    let s2 : Session := { s1 with cur := { s1.cur with branches := bl } }
    if commitOk then
      (.ok rec0, (Session.commit s2).base)
    else
      (.error "Transaction failed: commit aborted", (Session.rollback s2).base)

/-- C3: if `create_sales_record` fails at any step (the sequence-update step
or the record insert/commit), then after the rollback the branch's
`DC_Last_Number`, `Acc_Inv_1_Last_Number` and `Acc_Inv_2_Last_Number` are
identical to their values before the call and no SalesRecord is persisted. -/
theorem create_sales_record_atomic (db : DB) (rd : RecordData) (commitOk : Bool)
    (e : String) (out : DB)
    (h : create_sales_record db rd commitOk = (.error e, out)) :
    (∀ bid b, findBranch db bid = some b →
      ∃ b', findBranch out bid = some b' ∧
        b'.DC_Last_Number = b.DC_Last_Number ∧
        b'.Acc_Inv_1_Last_Number = b.Acc_Inv_1_Last_Number ∧
        b'.Acc_Inv_2_Last_Number = b.Acc_Inv_2_Last_Number) ∧
    out.salesRecords = db.salesRecords := by
  have hout : out = db := by
    have hunfold : create_sales_record db rd commitOk =
        (match updateBranchesList db.branches rd.Branch_ID rd.DC_Sequence_No
            rd.Acc_Inv_1_No rd.Acc_Inv_2_No with
        | .error e2 => ((.error ("Transaction failed: " ++ e2) :
            Except String SalesRecord), db)
        | .ok bl =>
          if commitOk then
            (.ok (recordOf rd),
             { db with salesRecords := db.salesRecords ++ [recordOf rd],
                       branches := bl })
          else
            (.error "Transaction failed: commit aborted", db)) := by
      rfl
    cases hm : updateBranchesList db.branches rd.Branch_ID rd.DC_Sequence_No
        rd.Acc_Inv_1_No rd.Acc_Inv_2_No with
    | error e2 =>
      rw [hunfold, hm] at h
      have h2 : ((.error ("Transaction failed: " ++ e2) :
          Except String SalesRecord), db) = (.error e, out) := h
      exact (congrArg Prod.snd h2).symm
    | ok bl =>
      rw [hunfold, hm] at h
      cases commitOk with
      | true =>
        have h2 : ((.ok (recordOf rd) : Except String SalesRecord),
            ({ db with salesRecords := db.salesRecords ++ [recordOf rd],
                       branches := bl } : DB)) = (.error e, out) := h
        exact absurd (congrArg Prod.fst h2) (by simp)
      | false =>
        have h2 : ((.error "Transaction failed: commit aborted" :
            Except String SalesRecord), db) = (.error e, out) := h
        exact (congrArg Prod.snd h2).symm
  subst hout
  exact ⟨fun bid b hb => ⟨b, hb, rfl, rfl, rfl⟩, rfl⟩

/-- A sample record payload used for concrete witnesses. -/
def sampleRecordData : RecordData :=
  { Branch_ID := "BR1", DC_Number := "DC-0008", Customer_Name := "A. Kumar",
    Phone_Number := "9999999999", Model := "ACTIVA", Discount_Given := 500,
    DC_Sequence_No := 8, Acc_Inv_1_No := 1201, Acc_Inv_2_No := 0 }

/-- Concrete witness for C3: a commit-level failure on `sampleDB` leaves the
branch counters and the sales records exactly as before. -/
theorem create_sales_record_atomic_witness :
    (∀ bid b, findBranch sampleDB bid = some b →
      ∃ b', findBranch sampleDB bid = some b' ∧
        b'.DC_Last_Number = b.DC_Last_Number ∧
        b'.Acc_Inv_1_Last_Number = b.Acc_Inv_1_Last_Number ∧
        b'.Acc_Inv_2_Last_Number = b.Acc_Inv_2_Last_Number) ∧
    sampleDB.salesRecords = sampleDB.salesRecords := by
  exact create_sales_record_atomic sampleDB sampleRecordData false
    "Transaction failed: commit aborted" sampleDB (by rfl)

/-! ## C7: the SalesOrder aggregate (order.py `SalesOrder`) -/

/-- The in-memory `SalesOrder` value object of order.py (the fields its
`__init__` and `set_finance_details` read or write). -/
structure SalesOrder where
  branch_id : String
  branch_name : String
  dc_number : String
  customer_name : String
  place : String
  phone : String
  sales_staff : String
  financier_name : String
  executive_name : String
  banker_name : String
  listed_price : Rat
  orp_price : Rat
  tax_component : Rat
  final_cost : Rat
  discount : Rat
  vehicle_color_name : String
  pr_fee_checkbox : Bool
  ew_selection : String
  sale_type : String
  hp_fee : Rat
  incentive_earned : Rat
  dd_amount : Rat
  down_payment : Rat
  remaining_finance_amount : Rat
  accessory_package_id : String
  deriving Repr, DecidableEq

/-- order.py `SalesOrder.__init__`: the vehicle row contributes
`FINAL_PRICE` (listed price), `ORP` and `Model`; the discount is
`listed_price - final_cost`; the sale starts as a Cash sale with zero DD,
down payment and remaining finance amount. -/
def mkSalesOrder (customer_name place phone : String)
    (vehicle_FINAL_PRICE vehicle_ORP : Rat) (vehicle_Model : String)
    (final_cost_by_staff : Rat)
    (sales_staff financier_name executive_name vehicle_color_name : String)
    (hp_fee_to_charge incentive_earned : Rat)
    (banker_name dc_number branch_name : String) (branch_id : String)
    (pr_fee_checkbox : Bool) (ew_selection : String) : SalesOrder :=
  { branch_id := branch_id, branch_name := branch_name, dc_number := dc_number,
    customer_name := customer_name, place := place, phone := phone,
    sales_staff := sales_staff, financier_name := financier_name,
    executive_name := executive_name, banker_name := banker_name,
    listed_price := vehicle_FINAL_PRICE, orp_price := vehicle_ORP,
    tax_component := vehicle_FINAL_PRICE - vehicle_ORP,
    final_cost := final_cost_by_staff,
    discount := vehicle_FINAL_PRICE - final_cost_by_staff,
    vehicle_color_name := vehicle_color_name,
    pr_fee_checkbox := pr_fee_checkbox, ew_selection := ew_selection,
    sale_type := "Cash", hp_fee := hp_fee_to_charge,
    incentive_earned := incentive_earned, dd_amount := 0, down_payment := 0,
    remaining_finance_amount := 0, accessory_package_id := vehicle_Model }

/-- order.py `SalesOrder.set_finance_details`: flips the sale to Finance and
sets `remaining_finance_amount = (final_cost + hp_fee + incentive_earned)
- dd_amount - down_payment` (no flooring). -/
def SalesOrder.set_finance_details (o : SalesOrder) (dd_amount down_payment : Rat) :
    SalesOrder :=
  { o with sale_type := "Finance",
           dd_amount := dd_amount,
           down_payment := down_payment,
           remaining_finance_amount :=
             (o.final_cost + o.hp_fee + o.incentive_earned)
               - dd_amount - down_payment }

/-- Counterexample to C7: with final cost 100, hp fee 0, incentive 0, a DD
amount of 200 and no down payment, `set_finance_details` leaves
`remaining_finance_amount = -100`, which is negative — the code does not
floor the value at 0 as the claim states. -/
theorem set_finance_details_not_floored :
    (SalesOrder.set_finance_details
      (mkSalesOrder "A. Kumar" "Town" "9999999999" 100 90 "ACTIVA" 100
        "Staff" "N/A (Cash Sale)" "N/A (Cash Sale)" "BLACK" 0 0 "" "TEMP"
        "Main" "BR1" false "None") 200 0).remaining_finance_amount < 0 := by
  simp only [mkSalesOrder, SalesOrder.set_finance_details]
  norm_num

/-- C7 (amended): for every constructed SalesOrder, `discount` equals
`listed_price - final_cost`; and after `set_finance_details(dd, dp)` the
`sale_type` is Finance and `remaining_finance_amount` equals
`(final_cost + hp_fee + incentive) - dd - dp`, with no flooring (it can be
negative when `dd + dp` exceeds the total obligation). -/
theorem sales_order_invariants (customer_name place phone : String)
    (listed orp : Rat) (model : String) (final_cost : Rat)
    (sales_staff financier executive color : String) (hp_fee incentive : Rat)
    (banker dc branch_name branch_id : String) (prf : Bool) (ew : String)
    (dd dp : Rat) :
    (mkSalesOrder customer_name place phone listed orp model final_cost
        sales_staff financier executive color hp_fee incentive banker dc
        branch_name branch_id prf ew).discount = listed - final_cost ∧
    ((mkSalesOrder customer_name place phone listed orp model final_cost
        sales_staff financier executive color hp_fee incentive banker dc
        branch_name branch_id prf ew).set_finance_details dd dp).sale_type
      = "Finance" ∧
    ((mkSalesOrder customer_name place phone listed orp model final_cost
        sales_staff financier executive color hp_fee incentive banker dc
        branch_name branch_id prf ew).set_finance_details dd dp).remaining_finance_amount
      = (final_cost + hp_fee + incentive) - dd - dp := by
  exact ⟨rfl, rfl, rfl⟩

/-! ## C6: the accessory bill splitter
(features/sales/logic.py `process_accessories_and_split`) -/

/-- One resolved accessory package item as produced by
`get_accessory_package_for_model`: name, price, and slot 1 or 2 (package
positions 1-4 map to slot 1, positions 5-10 to slot 2). -/
structure AccessoryItem where
  name : String
  price : Rat
  firm_slot : Nat
  deriving Repr, DecidableEq

/-- One line of a firm bill: the dict
`{'name': ..., 'qty': 1, 'price': p, 'total': p}` built in the split loop. -/
structure BillLine where
  name : String
  qty : Nat
  price : Rat
  total : Rat
  deriving Repr, DecidableEq

/-- One firm-scoped accessory bill emitted by the splitter. -/
structure AccessoryBill where
  firm_id : Int
  accessory_slot : Nat
  firm_details : FirmMaster
  accessories : List BillLine
  subtotal : Rat
  grand_total : Rat
  deriving Repr, DecidableEq

/-- Python truthiness of a nullable integer column (`if firm_1_id:`):
false for NULL and for 0, true otherwise. -/
def optTruthy : Option Int → Bool
  | none => false
  | some v => v != 0

/-- The bill line built from an accessory item (`qty` 1, `total` = price). -/
def lineOf (i : AccessoryItem) : BillLine :=
  { name := i.name, qty := 1, price := i.price, total := i.price }

/-- The accumulation loop of `process_accessories_and_split`: walk the
accessory list once; an item priced > 0 goes to the slot-1 lists when its
slot is 1 and the branch has a slot-1 firm, else to the slot-2 lists when
its slot is 2 and the branch has a slot-2 firm, else nowhere. -/
def splitLoopAux : List AccessoryItem → Bool → Bool →
    List BillLine → List BillLine → Rat → Rat →
    List BillLine × List BillLine × Rat × Rat
  | [], _, _, a1, a2, s1, s2 => (a1, a2, s1, s2)
  | item :: rest, f1, f2, a1, a2, s1, s2 =>
    if 0 < item.price then
      if item.firm_slot == 1 && f1 then
        splitLoopAux rest f1 f2 (a1 ++ [lineOf item]) a2 (s1 + item.price) s2
      else if item.firm_slot == 2 && f2 then
        splitLoopAux rest f1 f2 a1 (a2 ++ [lineOf item]) s1 (s2 + item.price)
      else
        splitLoopAux rest f1 f2 a1 a2 s1 s2
    else
      splitLoopAux rest f1 f2 a1 a2 s1 s2

/-- The slot-1 items the loop bills: positive price, slot 1, slot-1 firm
assigned. -/
def slot1Items (items : List AccessoryItem) (f1 : Bool) : List AccessoryItem :=
  items.filter (fun i => decide (0 < i.price) && (i.firm_slot == 1 && f1))

/-- The slot-2 items the loop bills: positive price, slot 2, slot-2 firm
assigned, and not already taken by the slot-1 branch. -/
def slot2Items (items : List AccessoryItem) (f1 f2 : Bool) : List AccessoryItem :=
  items.filter (fun i => decide (0 < i.price) &&
    (!(i.firm_slot == 1 && f1) && (i.firm_slot == 2 && f2)))

/-- Closed form of the split loop: appends the billed lines per slot and adds
the billed prices per slot. -/
theorem splitLoopAux_spec (items : List AccessoryItem) (f1 f2 : Bool)
    (a1 a2 : List BillLine) (s1 s2 : Rat) :
    splitLoopAux items f1 f2 a1 a2 s1 s2 =
      (a1 ++ (slot1Items items f1).map lineOf,
       a2 ++ (slot2Items items f1 f2).map lineOf,
       s1 + ((slot1Items items f1).map (fun i => i.price)).sum,
       s2 + ((slot2Items items f1 f2).map (fun i => i.price)).sum) := by
  induction items generalizing a1 a2 s1 s2 with
  | nil =>
    simp [splitLoopAux, slot1Items, slot2Items]
  | cons i t ih =>
    by_cases hp : (0 : Rat) < i.price
    · by_cases h1 : (i.firm_slot == 1 && f1) = true
      · simp only [Bool.and_eq_true, beq_iff_eq] at h1
        obtain ⟨hslot, hf1⟩ := h1
        subst hf1
        have hs1 : slot1Items (i :: t) true = i :: slot1Items t true := by
          simp [slot1Items, List.filter_cons, hp, hslot]
        have hs2 : slot2Items (i :: t) true f2 = slot2Items t true f2 := by
          simp [slot2Items, List.filter_cons, hslot]
        simp [splitLoopAux, hp, hslot, hs1, hs2, ih, add_assoc]
      · by_cases h2 : (i.firm_slot == 2 && f2) = true
        · simp only [Bool.and_eq_true, beq_iff_eq] at h1 h2
          obtain ⟨hslot2, hf2⟩ := h2
          subst hf2
          have hs1 : slot1Items (i :: t) f1 = slot1Items t f1 := by
            simp [slot1Items, List.filter_cons, h1]
          have hs2 : slot2Items (i :: t) f1 true = i :: slot2Items t f1 true := by
            simp [slot2Items, List.filter_cons, hp, h1, hslot2]
          simp [splitLoopAux, hp, h1, hslot2, hs1, hs2, ih, add_assoc]
        · simp only [Bool.and_eq_true, beq_iff_eq] at h1 h2
          have hs1 : slot1Items (i :: t) f1 = slot1Items t f1 := by
            simp [slot1Items, List.filter_cons, h1]
          have hs2 : slot2Items (i :: t) f1 f2 = slot2Items t f1 f2 := by
            simp [slot2Items, List.filter_cons, h2]
          simp [splitLoopAux, hp, h1, h2, hs1, hs2, ih]
    · have hs1 : slot1Items (i :: t) f1 = slot1Items t f1 := by
        simp [slot1Items, List.filter_cons, hp]
      have hs2 : slot2Items (i :: t) f1 f2 = slot2Items t f1 f2 := by
        simp [slot2Items, List.filter_cons, hp]
      simp [splitLoopAux, hp, hs1, hs2, ih]

/-- features/sales/logic.py `process_accessories_and_split`: run the split
loop with the branch's two firm assignments, compute grand totals by adding
the (zero) GST, and emit a bill per slot only when its grand total is
positive, the slot firm is assigned and the firm lookup in the firm master
succeeds. -/
def process_accessories_and_split (model_id : String)
    (accessory_list : List AccessoryItem) (firm_master_df : List FirmMaster)
    (branch : Branch) : List AccessoryBill :=
  let firm_1_id := branch.Firm_ID_1
  let firm_2_id := branch.Firm_ID_2
  match splitLoopAux accessory_list (optTruthy firm_1_id) (optTruthy firm_2_id)
      [] [] 0 0 with
  | (accessories_1, accessories_2, subtotal_1, subtotal_2) =>
    let grand_total_1 := subtotal_1 + subtotal_1 * GST_RATE_CALC
    let grand_total_2 := subtotal_2 + subtotal_2 * GST_RATE_CALC
    let bills_1 : List AccessoryBill :=
      if 0 < grand_total_1 ∧ optTruthy firm_1_id = true then
        match firm_1_id with
        | some fid =>
          match findFirm firm_master_df fid with
          | some fm =>
            [{ firm_id := fid, accessory_slot := 1, firm_details := fm,
               accessories := accessories_1, subtotal := subtotal_1,
               grand_total := grand_total_1 }]
          | none => []
        | none => []
      else []
    let bills_2 : List AccessoryBill :=
      if 0 < grand_total_2 ∧ optTruthy firm_2_id = true then
        match firm_2_id with
        | some fid =>
          match findFirm firm_master_df fid with
          | some fm =>
            [{ firm_id := fid, accessory_slot := 2, firm_details := fm,
               accessories := accessories_2, subtotal := subtotal_2,
               grand_total := grand_total_2 }]
          | none => []
        | none => []
      else []
    bills_1 ++ bills_2

/-- The claim-side list: the slot-`slot` items with positive price (this
definition follows the claim's words, to be compared with the loop's
accumulation). -/
def slotPosItems (items : List AccessoryItem) (slot : Nat) : List AccessoryItem :=
  items.filter (fun i => decide (0 < i.price) && (i.firm_slot == slot))

/-- With a slot-1 firm assigned, the loop bills exactly the positive-priced
slot-1 items. -/
theorem slot1Items_true (items : List AccessoryItem) :
    slot1Items items true = slotPosItems items 1 := by
  unfold slot1Items slotPosItems
  refine List.filter_congr ?_
  intro i _
  simp

/-- With a slot-2 firm assigned, the loop bills exactly the positive-priced
slot-2 items, whatever the slot-1 assignment. -/
theorem slot2Items_true (items : List AccessoryItem) (f1 : Bool) :
    slot2Items items f1 true = slotPosItems items 2 := by
  unfold slot2Items slotPosItems
  refine List.filter_congr ?_
  intro i _
  by_cases h2 : i.firm_slot = 2
  · simp [h2]
  · have hb : (i.firm_slot == 2) = false := by simpa using h2
    simp [hb]

/-- Every bill the splitter emits is fully characterized: its slot's firm is
assigned and truthy, its line items and subtotal are the slot's billed
items, its grand total is subtotal plus (zero) GST and is positive, and its
firm lookup succeeded. -/
theorem process_mem_characterization (model_id : String)
    (items : List AccessoryItem) (fms : List FirmMaster) (branch : Branch)
    (bl : AccessoryBill)
    (hbl : bl ∈ process_accessories_and_split model_id items fms branch) :
    (bl.accessory_slot = 1 ∧ optTruthy branch.Firm_ID_1 = true ∧
      bl.accessories = (slot1Items items (optTruthy branch.Firm_ID_1)).map lineOf ∧
      bl.subtotal = ((slot1Items items (optTruthy branch.Firm_ID_1)).map
        (fun i => i.price)).sum ∧
      0 < bl.grand_total ∧ findFirm fms bl.firm_id = some bl.firm_details) ∨
    (bl.accessory_slot = 2 ∧ optTruthy branch.Firm_ID_2 = true ∧
      bl.accessories = (slot2Items items (optTruthy branch.Firm_ID_1)
        (optTruthy branch.Firm_ID_2)).map lineOf ∧
      bl.subtotal = ((slot2Items items (optTruthy branch.Firm_ID_1)
        (optTruthy branch.Firm_ID_2)).map (fun i => i.price)).sum ∧
      0 < bl.grand_total ∧ findFirm fms bl.firm_id = some bl.firm_details) := by
  simp only [process_accessories_and_split] at hbl
  rw [splitLoopAux_spec] at hbl
  simp only [List.nil_append, zero_add] at hbl
  rcases List.mem_append.mp hbl with h | h
  · left
    split at h
    case isTrue hcond =>
      split at h
      case h_1 fid heq =>
        split at h
        case h_1 fm hfm =>
          simp only [List.mem_singleton] at h
          subst h
          refine ⟨rfl, hcond.2, rfl, rfl, hcond.1, ?_⟩
          simp only []
          rw [hfm]
        case h_2 => simp at h
      case h_2 => simp at h
    case isFalse => simp at h
  · right
    split at h
    case isTrue hcond =>
      split at h
      case h_1 fid heq =>
        split at h
        case h_1 fm hfm =>
          simp only [List.mem_singleton] at h
          subst h
          refine ⟨rfl, hcond.2, rfl, rfl, hcond.1, ?_⟩
          simp only []
          rw [hfm]
        case h_2 => simp at h
      case h_2 => simp at h
    case isFalse => simp at h

/-- C6: for every accessory list and branch, the slot-1 bill's subtotal is
the sum of the prices of the slot-1 items with positive price (likewise for
slot 2); items priced at or below 0 appear in neither bill; a branch with no
firm assigned to a slot never produces a bill for that slot; and a bill is
emitted only when its grand_total is positive and the firm lookup in the
firm master succeeds. -/
theorem process_accessories_and_split_totals (model_id : String)
    (items : List AccessoryItem) (fms : List FirmMaster) (branch : Branch) :
    (∀ bl ∈ process_accessories_and_split model_id items fms branch,
      bl.accessory_slot = 1 →
      bl.subtotal = ((slotPosItems items 1).map (fun i => i.price)).sum) ∧
    (∀ bl ∈ process_accessories_and_split model_id items fms branch,
      bl.accessory_slot = 2 →
      bl.subtotal = ((slotPosItems items 2).map (fun i => i.price)).sum) ∧
    (∀ bl ∈ process_accessories_and_split model_id items fms branch,
      ∀ li ∈ bl.accessories, 0 < li.price) ∧
    (optTruthy branch.Firm_ID_1 = false →
      ∀ bl ∈ process_accessories_and_split model_id items fms branch,
        bl.accessory_slot ≠ 1) ∧
    (optTruthy branch.Firm_ID_2 = false →
      ∀ bl ∈ process_accessories_and_split model_id items fms branch,
        bl.accessory_slot ≠ 2) ∧
    (∀ bl ∈ process_accessories_and_split model_id items fms branch,
      0 < bl.grand_total ∧ findFirm fms bl.firm_id = some bl.firm_details) := by
  refine ⟨?_, ?_, ?_, ?_, ?_, ?_⟩
  · intro bl hbl hslot
    rcases process_mem_characterization model_id items fms branch bl hbl with
      ⟨_, hf1, _, hsub, _, _⟩ | ⟨hs2, _, _, _, _, _⟩
    · rw [hsub, hf1, slot1Items_true]
    · rw [hslot] at hs2
      exact absurd hs2 (by norm_num)
  · intro bl hbl hslot
    rcases process_mem_characterization model_id items fms branch bl hbl with
      ⟨hs1, _, _, _, _, _⟩ | ⟨_, hf2, _, hsub, _, _⟩
    · rw [hslot] at hs1
      exact absurd hs1 (by norm_num)
    · rw [hsub, hf2, slot2Items_true]
  · intro bl hbl li hli
    rcases process_mem_characterization model_id items fms branch bl hbl with
      ⟨_, _, hacc, _, _, _⟩ | ⟨_, _, hacc, _, _, _⟩
    · rw [hacc] at hli
      obtain ⟨i, hi, rfl⟩ := List.mem_map.mp hli
      have hfi := (List.mem_filter.mp hi).2
      simp only [Bool.and_eq_true, decide_eq_true_eq] at hfi
      exact hfi.1
    · rw [hacc] at hli
      obtain ⟨i, hi, rfl⟩ := List.mem_map.mp hli
      have hfi := (List.mem_filter.mp hi).2
      simp only [Bool.and_eq_true, decide_eq_true_eq] at hfi
      exact hfi.1
  · intro hf1 bl hbl
    rcases process_mem_characterization model_id items fms branch bl hbl with
      ⟨_, hf1', _, _, _, _⟩ | ⟨hs2, _, _, _, _, _⟩
    · rw [hf1] at hf1'
      exact absurd hf1' (by norm_num)
    · rw [hs2]
      norm_num
  · intro hf2 bl hbl
    rcases process_mem_characterization model_id items fms branch bl hbl with
      ⟨hs1, _, _, _, _, _⟩ | ⟨_, hf2', _, _, _, _⟩
    · rw [hs1]
      norm_num
    · rw [hf2] at hf2'
      exact absurd hf2' (by norm_num)
  · intro bl hbl
    rcases process_mem_characterization model_id items fms branch bl hbl with
      ⟨_, _, _, _, hg, hfm⟩ | ⟨_, _, _, _, hg, hfm⟩
    · exact ⟨hg, hfm⟩
    · exact ⟨hg, hfm⟩

/-- A second sample firm (for the slot-2 assignment of `sampleBranch`). -/
def wFirm6 : FirmMaster :=
  { Firm_ID := 6, Firm_Name := "Sai Agencies", Invoice_Prefix := "SA",
    Gst_No := "GST2" }

/-- A sample accessory package: two priced slot-1 items, one free slot-1
item, one priced slot-2 item. -/
def wItems : List AccessoryItem :=
  [⟨"Guard", 500, 1⟩, ⟨"Mat", 700, 1⟩, ⟨"Sticker", 0, 1⟩, ⟨"Cover", 300, 2⟩]

/-- The firm master rows for the witness. -/
def wFirms : List FirmMaster := [sampleFirm, wFirm6]

/-- The slot-1 bill the splitter produces on the witness inputs. -/
def wBill1 : AccessoryBill :=
  { firm_id := 5, accessory_slot := 1, firm_details := sampleFirm,
    accessories := [lineOf ⟨"Guard", 500, 1⟩, lineOf ⟨"Mat", 700, 1⟩],
    subtotal := 1200, grand_total := 1200 + 1200 * GST_RATE_CALC }

/-- Concrete witness for C6: on `wItems` and `sampleBranch` the splitter
emits a slot-1 bill whose subtotal is the sum of the positive-priced slot-1
item prices, namely 1200. -/
theorem process_accessories_and_split_totals_witness :
    ∃ bl ∈ process_accessories_and_split "ACTIVA" wItems wFirms sampleBranch,
      bl.accessory_slot = 1 ∧
      bl.subtotal = ((slotPosItems wItems 1).map (fun i => i.price)).sum ∧
      bl.subtotal = 1200 := by
  have hmem : wBill1 ∈ process_accessories_and_split "ACTIVA" wItems wFirms
      sampleBranch := by
    simp [process_accessories_and_split, splitLoopAux, wItems, wFirms,
      sampleBranch, sampleFirm, wFirm6, findFirm, optTruthy, lineOf,
      GST_RATE_CALC, wBill1]
    norm_num
  refine ⟨wBill1, hmem, rfl, ?_, rfl⟩
  exact (process_accessories_and_split_totals "ACTIVA" wItems wFirms
    sampleBranch).1 wBill1 hmem rfl

/-! ## C8 and C10: the cashier ledger
(features/cashier/logic.py `add_transaction`, `import_transactions`) -/

/-- The input dict of `add_transaction`: transaction fields plus the
`generate_receipt_no` flag that is popped off before insertion. -/
structure TxnData where
  date : Int
  transaction_type : String
  category : String
  payment_mode : String
  amount : Rat
  description : String
  branch_id : String
  party_name : Option String
  dc_number : Option String
  is_expense : Bool
  generate_receipt_no : Bool
  deriving Repr, DecidableEq

/-- Writing back the mutated (locked) branch row. -/
def setBranch (db : DB) (bid : String) (b' : Branch) : DB :=
  { db with branches := db.branches.map (fun r => if r.Branch_ID == bid then b' else r) }

/-- `models.CashierTransaction(**data)` + `db.add` + `db.commit`: builds the
row (the autoincrement id comes from the table), appends it, and returns
`(True, success_msg)`. -/
def insertTxn (db : DB) (d : TxnData) (is_expense : Bool) (rn vn : Option Int)
    (msg : String) : DB × (Bool × String) :=
  let t : CashierTransaction :=
    { id := db.nextCashierId, date := d.date,
      transaction_type := d.transaction_type, category := d.category,
      payment_mode := d.payment_mode, amount := d.amount,
      description := d.description, branch_id := d.branch_id,
      party_name := d.party_name, dc_number := d.dc_number,
      receipt_number := rn, voucher_number := vn, imported_from_id := none,
      is_expense := is_expense }
  ({ db with cashier := db.cashier ++ [t],
             nextCashierId := db.nextCashierId + 1 }, (true, msg))

/-- features/cashier/logic.py `add_transaction`: Receipts are forced
`is_expense = False`; with number generation requested and an existing
branch, the category picks one of four receipt counter series (branch
receipt / job card / out bill / standard receipt); Vouchers always draw from
the voucher series when the branch exists; a missing branch skips numbering
entirely; the transaction is inserted and committed in every path. -/
def add_transaction (db : DB) (data : TxnData) : DB × (Bool × String) :=
  if data.transaction_type == "Receipt" then
    if data.generate_receipt_no then
      match findBranch db data.branch_id with
      | some branch =>
        if data.category == "Branch Receipt" then
          let next_num := branch.Branch_Receipt_Last_Number + 1
          insertTxn (setBranch db data.branch_id
              { branch with Branch_Receipt_Last_Number := next_num })
            data false (some next_num) none
            ("Success! Branch Receipt No: " ++ toString next_num)
        else if data.category == "Job Card Sale" then
          let next_num := branch.Job_Card_Last_Number + 1
          insertTxn (setBranch db data.branch_id
              { branch with Job_Card_Last_Number := next_num })
            data false (some next_num) none
            ("Success! Job Card No: " ++ toString next_num)
        else if data.category == "Out Bill Sale" then
          let next_num := branch.Out_Bill_Last_Number + 1
          insertTxn (setBranch db data.branch_id
              { branch with Out_Bill_Last_Number := next_num })
            data false (some next_num) none
            ("Success! Out Bill No: " ++ toString next_num)
        else
          let next_num := branch.Receipt_Last_Number + 1
          insertTxn (setBranch db data.branch_id
              { branch with Receipt_Last_Number := next_num })
            data false (some next_num) none
            ("Success! Receipt No: " ++ toString next_num)
      | none => insertTxn db data false none none "Success"
    else
      insertTxn db data false none none "Success (No Receipt No.)"
  else if data.transaction_type == "Voucher" then
    match findBranch db data.branch_id with
    | some branch =>
      let next_num := branch.Voucher_Last_Number + 1
      insertTxn (setBranch db data.branch_id
          { branch with Voucher_Last_Number := next_num })
        data data.is_expense none (some next_num)
        ("Success! Voucher No: " ++ toString next_num)
    | none => insertTxn db data data.is_expense none none "Success"
  else
    insertTxn db data data.is_expense none none "Success"

/-- The copied row `import_transactions` builds from a source transaction:
retargeted branch and date, category and description annotated, counters
carried over verbatim, `imported_from_id` back-reference set, and a Receipt
forced to `is_expense = False`. -/
def importedCopy (src : CashierTransaction) (target_branch_id : String)
    (target_date : Int) (newId : Int) : CashierTransaction :=
  { id := newId, date := target_date,
    transaction_type := src.transaction_type,
    category := "Imported: " ++ src.category,
    payment_mode := src.payment_mode, amount := src.amount,
    description := src.description ++ " (Original Date: " ++ toString src.date
      ++ ", From " ++ src.branch_id ++ ")",
    branch_id := target_branch_id, party_name := src.party_name,
    dc_number := src.dc_number, receipt_number := src.receipt_number,
    voucher_number := src.voucher_number, imported_from_id := some src.id,
    is_expense := if src.transaction_type == "Receipt" then false
                  else src.is_expense }

/-- The copy loop of `import_transactions`, appending one new row per source
transaction and counting them. -/
def importLoop : List CashierTransaction → DB → String → Int → DB × Nat
  | [], db, _, _ => (db, 0)
  | src :: rest, db, tb, td =>
    let db1 : DB :=
      { db with cashier := db.cashier ++ [importedCopy src tb td db.nextCashierId],
                nextCashierId := db.nextCashierId + 1 }
    match importLoop rest db1 tb td with
    | (db2, n) => (db2, n + 1)

/-- features/cashier/logic.py `import_transactions`: copy the selected source
transactions into the target branch/date and commit. -/
def import_transactions (db : DB) (transaction_ids : List Int)
    (target_branch_id : String) (target_date : Int) : DB × (Bool × String) :=
  let source_txns := db.cashier.filter (fun t => transaction_ids.contains t.id)
  match importLoop source_txns db target_branch_id target_date with
  | (db2, count) =>
    (db2, (true, "Successfully imported " ++ toString count ++ " records into "
      ++ toString target_date ++ "."))

/-- The copy loop only appends rows, and every appended Receipt row has
`is_expense = false`. -/
theorem importLoop_receipts (srcs : List CashierTransaction) (db : DB)
    (tb : String) (td : Int) :
    ∃ newTxns, (importLoop srcs db tb td).1.cashier = db.cashier ++ newTxns ∧
      ∀ t ∈ newTxns, t.transaction_type = "Receipt" → t.is_expense = false := by
  induction srcs generalizing db with
  | nil =>
    exact ⟨[], by simp [importLoop], by simp⟩
  | cons src rest ih =>
    obtain ⟨newTxns, hc, hr⟩ := ih
      { db with cashier := db.cashier ++ [importedCopy src tb td db.nextCashierId],
                nextCashierId := db.nextCashierId + 1 }
    refine ⟨importedCopy src tb td db.nextCashierId :: newTxns, ?_, ?_⟩
    · have hstep : (importLoop (src :: rest) db tb td).1
          = (importLoop rest
              { db with cashier := db.cashier ++ [importedCopy src tb td db.nextCashierId],
                        nextCashierId := db.nextCashierId + 1 } tb td).1 := rfl
      rw [hstep, hc]
      simp
    · intro t ht
      rcases List.mem_cons.mp ht with rfl | ht2
      · intro htype
        unfold importedCopy at htype ⊢
        simp only [] at htype
        simp [htype]
      · exact hr t ht2

/-- C8: every persisted CashierTransaction with `transaction_type = Receipt`
has `is_expense = false` — both when created through `add_transaction`
(which overrides any caller-supplied `is_expense = true`) and when copied by
`import_transactions` from a source transaction whose `is_expense` was
true. -/
theorem receipt_is_expense_false (db : DB) (data : TxnData) (ids : List Int)
    (tb : String) (td : Int) :
    (data.transaction_type = "Receipt" →
      ∃ t, (add_transaction db data).1.cashier = db.cashier ++ [t] ∧
        t.transaction_type = "Receipt" ∧ t.is_expense = false) ∧
    (∃ newTxns,
      (import_transactions db ids tb td).1.cashier = db.cashier ++ newTxns ∧
      ∀ t ∈ newTxns, t.transaction_type = "Receipt" → t.is_expense = false) := by
  constructor
  · intro htype
    unfold add_transaction
    simp only [htype, beq_self_eq_true, if_true]
    split
    · split
      · split
        · exact ⟨_, rfl, htype, rfl⟩
        · split
          · exact ⟨_, rfl, htype, rfl⟩
          · split
            · exact ⟨_, rfl, htype, rfl⟩
            · exact ⟨_, rfl, htype, rfl⟩
      · exact ⟨_, rfl, htype, rfl⟩
    · exact ⟨_, rfl, htype, rfl⟩
  · obtain ⟨newTxns, hc, hr⟩ := importLoop_receipts
      (db.cashier.filter (fun t => ids.contains t.id)) db tb td
    refine ⟨newTxns, ?_, hr⟩
    have hstep : (import_transactions db ids tb td).1
        = (importLoop (db.cashier.filter (fun t => ids.contains t.id))
            db tb td).1 := rfl
    rw [hstep]
    exact hc

/-- Concrete witness for C8: a Receipt submitted with `is_expense = true`
into `sampleDB` is persisted with `is_expense = false`. -/
theorem receipt_is_expense_false_witness :
    ∃ t, (add_transaction sampleDB
        { date := 1, transaction_type := "Receipt", category := "Booking Receipt",
          payment_mode := "Cash", amount := 5000, description := "adv",
          branch_id := "BR1", party_name := none, dc_number := none,
          is_expense := true, generate_receipt_no := true }).1.cashier
      = sampleDB.cashier ++ [t] ∧
      t.transaction_type = "Receipt" ∧ t.is_expense = false := by
  exact (receipt_is_expense_false sampleDB
    { date := 1, transaction_type := "Receipt", category := "Booking Receipt",
      payment_mode := "Cash", amount := 5000, description := "adv",
      branch_id := "BR1", party_name := none, dc_number := none,
      is_expense := true, generate_receipt_no := true } [] "BR1" 1).1 rfl

/-- C10: for every input whose `branch_id` matches no existing Branch row,
`add_transaction` still inserts and commits the CashierTransaction — with
`receipt_number` (for a Receipt with number generation requested) or
`voucher_number` (for a Voucher) left unset and no counter touched (the
branches table is unchanged) — and returns success `(True, "Success")`
rather than failing. -/
theorem add_transaction_unknown_branch (db : DB) (data : TxnData)
    (hb : findBranch db data.branch_id = none) :
    (data.transaction_type = "Receipt" → data.generate_receipt_no = true →
      ∃ t, add_transaction db data
          = ({ db with cashier := db.cashier ++ [t],
                       nextCashierId := db.nextCashierId + 1 }, (true, "Success"))
        ∧ t.receipt_number = none ∧ t.voucher_number = none) ∧
    (data.transaction_type = "Voucher" →
      ∃ t, add_transaction db data
          = ({ db with cashier := db.cashier ++ [t],
                       nextCashierId := db.nextCashierId + 1 }, (true, "Success"))
        ∧ t.receipt_number = none ∧ t.voucher_number = none) := by
  constructor
  · intro htype hgen
    unfold add_transaction
    simp only [htype, hgen, beq_self_eq_true, if_true, hb]
    exact ⟨_, rfl, rfl, rfl⟩
  · intro htype
    unfold add_transaction
    have hne : (("Voucher" : String) == "Receipt") = false := by decide
    simp only [htype, hne, Bool.false_eq_true, if_false, beq_self_eq_true,
      if_true, hb]
    exact ⟨_, rfl, rfl, rfl⟩

/-- Concrete witness for C10: a Voucher for the unknown branch "BRX" on
`sampleDB` is inserted with no voucher number and returns (true, "Success"). -/
theorem add_transaction_unknown_branch_witness :
    ∃ t, add_transaction sampleDB
        { date := 2, transaction_type := "Voucher", category := "Fuel",
          payment_mode := "Cash", amount := 250, description := "fuel",
          branch_id := "BRX", party_name := none, dc_number := none,
          is_expense := true, generate_receipt_no := true }
      = ({ sampleDB with cashier := sampleDB.cashier ++ [t],
                         nextCashierId := sampleDB.nextCashierId + 1 },
         (true, "Success"))
      ∧ t.receipt_number = none ∧ t.voucher_number = none := by
  exact (add_transaction_unknown_branch sampleDB
    { date := 2, transaction_type := "Voucher", category := "Fuel",
      payment_mode := "Cash", amount := 250, description := "fuel",
      branch_id := "BRX", party_name := none, dc_number := none,
      is_expense := true, generate_receipt_no := true } (by rfl)).2 rfl

/-! ## C4: approval gating (app_sales.py `SalesForm`, `APPROVAL_LIMIT`) -/

/-- app_sales.py: `APPROVAL_LIMIT = 1500.0`. -/
def APPROVAL_LIMIT : Rat := 1500

/-- The ApprovalRequest row built from the serialized order payload. -/
def approvalOf (rd : RecordData) (branch_id : String) : ApprovalRequest :=
  { Customer_Name := rd.Customer_Name, Model := rd.Model,
    Discount_Requested := rd.Discount_Given, Order_JSON := rd,
    Branch_ID := branch_id, Status := "Pending" }

/-- Modelled from the spec: `create_approval_request(db, record_data,
branch_id)` is imported from `core.data_manager` by app_sales.py but its
definition is not under src; per the spec it stores the fully-computed order
(with a placeholder DC number) as an ApprovalRequest with status Pending —
no sequence is allocated and no counter is touched. -/
def create_approval_request (db : DB) (rd : RecordData) (branch_id : String) : DB :=
  { db with approvals := db.approvals ++ [approvalOf rd branch_id] }

/-- The direct finalization path of app_sales.py `SalesForm` ("GENERATE
DUAL-FIRM BILLS"): allocate the DC sequence, split the accessory bills,
allocate each bill's firm-slot invoice sequence, then persist the record and
the counters through `create_sales_record` in one transaction. -/
def directFinalize (db : DB) (branch_id : String) (model : String)
    (acc_list : List AccessoryItem) (rd : RecordData) (commitOk : Bool) :
    Except String DB :=
  match get_next_dc_number db branch_id with
  | .error e => .error ("Transaction failed: " ++ e)
  | .ok (dc_number, dc_seq_no) =>
    match findBranch db branch_id with
    | none => .error "Transaction failed: branch not found"
    | some branch_obj =>
      let bills := process_accessories_and_split model acc_list db.firms branch_obj
      let seqs := bills.foldl (fun (p : Int × Int) bill =>
        let r := generate_accessory_invoice_number db branch_obj
          bill.firm_id bill.accessory_slot
        if bill.accessory_slot == 1 then (r.2, p.2)
        else if bill.accessory_slot == 2 then (p.1, r.2)
        else p) (0, 0)
      let rd2 := { rd with DC_Number := dc_number, DC_Sequence_No := dc_seq_no,
                           Acc_Inv_1_No := seqs.1, Acc_Inv_2_No := seqs.2 }
      match create_sales_record db rd2 commitOk with
      | (.error e, _) => .error e
      | (.ok _, db2) => .ok db2

/-- The decision logic of app_sales.py `SalesForm`: compute
`discount = listed_price - final_cost`; when `discount > APPROVAL_LIMIT`
(strictly), validate the customer fields and store an ApprovalRequest;
otherwise validate and run the direct finalization. -/
def finalizeOrDefer (db : DB) (branch_id : String) (listed_price final_cost : Rat)
    (model : String) (acc_list : List AccessoryItem) (rd : RecordData)
    (commitOk : Bool) : Except String DB :=
  let discount := listed_price - final_cost
  let requires_approval := discount > APPROVAL_LIMIT
  if requires_approval then
    if rd.Customer_Name == "" || rd.Phone_Number == "" then
      .error "Missing Customer Name or Phone."
    else
      .ok (create_approval_request db rd branch_id)
  else
    if rd.Customer_Name == "" || rd.Phone_Number == "" then
      .error "Missing Customer Name or Phone."
    else
      directFinalize db branch_id model acc_list rd commitOk

/-- C4: with valid customer fields, a discount strictly greater than the
approval limit 1500 makes the workflow store an ApprovalRequest (appended
with status Pending) and leave the branches table — hence every DC and
accessory-invoice counter — untouched; a discount of exactly 1500 takes the
direct finalization path (the boundary is strictly-greater-than). -/
theorem approval_gating (db : DB) (branch_id : String) (listed final : Rat)
    (model : String) (acc_list : List AccessoryItem) (rd : RecordData)
    (commitOk : Bool) (hname : rd.Customer_Name ≠ "")
    (hphone : rd.Phone_Number ≠ "") :
    (listed - final > APPROVAL_LIMIT →
      finalizeOrDefer db branch_id listed final model acc_list rd commitOk
        = .ok (create_approval_request db rd branch_id)
      ∧ (create_approval_request db rd branch_id).approvals
          = db.approvals ++ [approvalOf rd branch_id]
      ∧ (create_approval_request db rd branch_id).branches = db.branches) ∧
    (listed - final = APPROVAL_LIMIT →
      finalizeOrDefer db branch_id listed final model acc_list rd commitOk
        = directFinalize db branch_id model acc_list rd commitOk) := by
  have hguard : (rd.Customer_Name == "" || rd.Phone_Number == "") = false := by
    simp [hname, hphone]
  constructor
  · intro hdisc
    refine ⟨?_, rfl, rfl⟩
    unfold finalizeOrDefer
    rw [if_pos hdisc, hguard]
    rfl
  · intro hdisc
    unfold finalizeOrDefer
    rw [if_neg (by rw [hdisc]; exact lt_irrefl _), hguard]
    rfl

/-- Concrete witness for C4: on `sampleDB`, a discount of 1501 (listed 2000,
final 499) goes to the approval path with counters untouched, while a
discount of exactly 1500 (final 500) goes to the direct path. -/
theorem approval_gating_witness :
    (finalizeOrDefer sampleDB "BR1" 2000 499 "ACTIVA" wItems sampleRecordData true
        = .ok (create_approval_request sampleDB sampleRecordData "BR1")
      ∧ (create_approval_request sampleDB sampleRecordData "BR1").approvals
          = sampleDB.approvals ++ [approvalOf sampleRecordData "BR1"]
      ∧ (create_approval_request sampleDB sampleRecordData "BR1").branches
          = sampleDB.branches) ∧
    finalizeOrDefer sampleDB "BR1" 2000 500 "ACTIVA" wItems sampleRecordData true
      = directFinalize sampleDB "BR1" "ACTIVA" wItems sampleRecordData true := by
  constructor
  · exact (approval_gating sampleDB "BR1" 2000 499 "ACTIVA" wItems
      sampleRecordData true (by decide) (by decide)).1
      (by norm_num [APPROVAL_LIMIT])
  · exact (approval_gating sampleDB "BR1" 2000 500 "ACTIVA" wItems
      sampleRecordData true (by decide) (by decide)).2
      (by norm_num [APPROVAL_LIMIT])

end VehicleSales
